import Mathlib

/-!
# Verification of the AuthBackend authentication core

A shallow embedding, in Lean 4, of the authentication controllers of this
repository (`controllers/authcontroller.js`, two variants, and
`middleware/auth.js`), together with proofs of the behavioural properties
claimed about them.

Modelling conventions:
* The Supabase credential store is an explicit value (`List OtpRecord`,
  `List AppUser`, ...); each handler is a pure function from the store and
  its request inputs to a result and the updated store.
* bcrypt is modelled by an injective tagging function `bcryptHash`;
  `bcryptCompare s h` returns `true` exactly when `h` is the hash of `s`.
* JavaScript truthiness on optional strings (`!x`) is modelled by `strFalsy`:
  an absent value (`none`) and the empty string are both falsy.
* Timestamps are integers in milliseconds since the epoch; `iat` claims of
  JWTs are in seconds, multiplied by 1000 where the source does so.
* Randomness (OTP codes, CSRF values, fresh row ids) is passed in as an
  explicit argument where the source draws it.
-/

namespace AuthBackend

/-- JavaScript truthiness for an optional string: `undefined`/`null` and the
empty string are falsy. -/
def strFalsy (o : Option String) : Bool :=
  match o with
  | none => true
  | some s => s == ""

/-- Model of JavaScript `String.prototype.trim()`: strip leading and
trailing whitespace (executable over the character list). -/
def jsTrim (s : String) : String :=
  String.mk
    (((s.data.dropWhile Char.isWhitespace).reverse.dropWhile
      Char.isWhitespace).reverse)

/-- Model of JavaScript `String.prototype.toLowerCase()` for the ASCII range
used here. -/
def jsToLower (s : String) : String :=
  String.mk (s.data.map Char.toLower)

/-- Model of `email.split("@")[0]`: the characters before the first `@`. -/
def jsEmailLocalPart (email : String) : String :=
  String.mk (email.data.takeWhile (fun ch => !(ch == '@')))

/-- Model of `bcrypt.hash(s, 10)`: an opaque injective tag of the plaintext.
The salt/cost are irrelevant to the control flow being verified. -/
def bcryptHash (s : String) : String :=
  "$2b$10$" ++ s

/-- Model of `bcrypt.compare(s, h)`: true exactly when `h` is the bcrypt hash
of `s`. -/
def bcryptCompare (s h : String) : Bool :=
  bcryptHash s == h

-- ──────────────────────────────────────────────────────────────────────────
-- OTP engine: table `login_otps` and `verifyAndConsumeOtp`
-- ──────────────────────────────────────────────────────────────────────────

/-- A row of the `login_otps` table. `attempts` is `Option Nat` because the
source guards every use with `typeof rec.attempts === 'number'` (the column
is optional). `consumed_at` is `null` until the record is consumed. -/
structure OtpRecord where
  id : Nat
  user_id : Nat
  purpose : String
  otp_hash : String
  expires_at : Int
  consumed_at : Option Int
  attempts : Option Nat
  created_at : Int
  deriving DecidableEq, Repr

/-- The row filter of the select in `verifyAndConsumeOtp`:
`.eq('user_id', u).eq('purpose', p).is('consumed_at', null)`. -/
def otpCandidate (u : Nat) (p : String) (r : OtpRecord) : Bool :=
  r.user_id == u && r.purpose == p && r.consumed_at.isNone

/-- Select `.order('created_at', { ascending: false }).limit(1).maybeSingle()` over
the filtered rows: the most recent unconsumed record, `none` if there is
none. -/
def selectLatestUnconsumed (st : List OtpRecord) (u : Nat) (p : String) :
    Option OtpRecord :=
  (st.filter (otpCandidate u p)).foldl
    (fun acc r =>
      match acc with
      | none => some r
      | some b => if r.created_at > b.created_at then some r else some b)
    none

/-- Update `.update({ attempts: v }).eq('id', id)`. -/
def setAttempts (st : List OtpRecord) (id : Nat) (v : Nat) : List OtpRecord :=
  st.map (fun r => if r.id == id then { r with attempts := some v } else r)

/-- Update `.update({ consumed_at: t }).eq('id', id)`. -/
def markConsumed (st : List OtpRecord) (id : Nat) (t : Int) : List OtpRecord :=
  st.map (fun r => if r.id == id then { r with consumed_at := some t } else r)

/-- Check `typeof rec.attempts === 'number' && rec.attempts >= 5`. -/
def attemptsCapped (r : OtpRecord) : Bool :=
  match r.attempts with
  | some a => 5 ≤ a
  | none => false

/-- The four outcomes of `verifyAndConsumeOtp` (`{ ok: true }` and the three
`{ ok: false, reason }` shapes). -/
inductive OtpOutcome where
  | ok
  | invalid
  | expired
  | tooManyAttempts
  deriving DecidableEq, Repr

/-- Function `verifyAndConsumeOtp(user_id, otp, purpose)` from
`controllers/authcontroller.js`, at time `t` (ms): select the latest
unconsumed record; absence → `invalid`; `expires_at < now` → `expired`;
`attempts >= 5` → `too_many_attempts` (before comparing); compare, bump
`attempts` unconditionally when the column exists, `invalid` on mismatch,
else mark consumed and return `ok`. Returns the outcome and the updated
`login_otps` table. -/
def verifyAndConsumeOtp (st : List OtpRecord) (user_id : Nat) (otp : String)
    (purpose : String) (t : Int) : OtpOutcome × List OtpRecord :=
  match selectLatestUnconsumed st user_id purpose with
  | none => (.invalid, st)
  | some rec =>
    if rec.expires_at < t then (.expired, st)
    else if attemptsCapped rec then
      (.tooManyAttempts, st)
    else
      let isMatch := bcryptCompare otp rec.otp_hash
      let st1 := match rec.attempts with
        | some a => setAttempts st rec.id (a + 1)
        | none => st
      if !isMatch then (.invalid, st1)
      else (.ok, markConsumed st1 rec.id t)

/-- The bcrypt model is injective on plaintexts. -/
lemma bcryptHash_inj {s t : String} (h : bcryptHash s = bcryptHash t) : s = t := by
  unfold bcryptHash at h
  have hd := congrArg String.data h
  simp only [String.data_append] at hd
  exact String.ext (List.append_cancel_left hd)

/-- Comparing a candidate against a stored hash succeeds exactly on the
hashed plaintext. -/
lemma bcryptCompare_hash (s r : String) : bcryptCompare s (bcryptHash r) = (s == r) := by
  by_cases h : s = r
  · subst h; simp [bcryptCompare]
  · have hne : bcryptHash s ≠ bcryptHash r := fun hc => h (bcryptHash_inj hc)
    simp [bcryptCompare, h, hne]

/-- If the filtered candidates are exactly `[rec]`, the latest-unconsumed
select returns `rec`. -/
lemma selectLatestUnconsumed_of_filter_singleton {st : List OtpRecord} {u : Nat}
    {p : String} {rec : OtpRecord} (h : st.filter (otpCandidate u p) = [rec]) :
    selectLatestUnconsumed st u p = some rec := by
  simp [selectLatestUnconsumed, h]

/-- After marking the sole candidate consumed (with or without an attempts
bump), no candidate row remains for `(u, p)`. -/
lemma filter_eq_nil_after_consume {st st1 : List OtpRecord} {u : Nat} {p : String}
    {rec : OtpRecord} (hone : st.filter (otpCandidate u p) = [rec])
    (hst1 : st1 = st ∨ ∃ v, st1 = setAttempts st rec.id v) (t : Int) :
    (markConsumed st1 rec.id t).filter (otpCandidate u p) = [] := by
  rw [List.filter_eq_nil_iff]
  intro x hx
  rw [markConsumed, List.mem_map] at hx
  obtain ⟨y, hy, rfl⟩ := hx
  have hy' : ∃ r ∈ st, y.id = r.id ∧ y.user_id = r.user_id ∧
      y.purpose = r.purpose ∧ y.consumed_at = r.consumed_at := by
    rcases hst1 with rfl | ⟨v, rfl⟩
    · exact ⟨y, hy, rfl, rfl, rfl, rfl⟩
    · rw [setAttempts, List.mem_map] at hy
      obtain ⟨r, hr, rfl⟩ := hy
      refine ⟨r, hr, ?_⟩
      by_cases hid : (r.id == rec.id) <;> simp [hid]
  obtain ⟨r, hr, h1, h2, h3, h4⟩ := hy'
  by_cases hcase : (y.id == rec.id)
  · simp [hcase, otpCandidate]
  · rw [if_neg hcase]
    intro hcand
    have hcr : otpCandidate u p r = true := by
      unfold otpCandidate at hcand ⊢
      rw [h2, h3, h4] at hcand
      exact hcand
    have hrmem : r ∈ st.filter (otpCandidate u p) := List.mem_filter.mpr ⟨hr, hcr⟩
    rw [hone, List.mem_singleton] at hrmem
    subst hrmem
    simp only [beq_iff_eq] at hcase
    exact hcase h1

/-- C1: for every (user id, purpose) pair with exactly one unconsumed OTP
record, once `verifyAndConsumeOtp` returns `ok`, any subsequent call for the
same user and purpose (in particular one presenting the same correct code)
returns the `invalid` outcome: the consumed record, having a non-null
`consumed_at`, is never selected or re-consumed. -/
theorem otp_consumed_at_most_once
    (st : List OtpRecord) (u : Nat) (p code : String) (t : Int)
    (rec : OtpRecord) (st' : List OtpRecord)
    (hone : st.filter (otpCandidate u p) = [rec])
    (hok : verifyAndConsumeOtp st u code p t = (.ok, st')) :
    ∀ (code' : String) (t' : Int),
      (verifyAndConsumeOtp st' u code' p t').1 = .invalid := by
  intro code' t'
  have hsel : selectLatestUnconsumed st u p = some rec :=
    selectLatestUnconsumed_of_filter_singleton hone
  have hst' : ∃ st1, (st1 = st ∨ ∃ v, st1 = setAttempts st rec.id v) ∧
      st' = markConsumed st1 rec.id t := by
    rcases ha : rec.attempts with _ | a <;>
      simp only [verifyAndConsumeOtp, hsel, ha, attemptsCapped] at hok <;>
      split_ifs at hok <;>
      first
        | exact ⟨st, Or.inl rfl, (congrArg Prod.snd hok).symm⟩
        | exact ⟨setAttempts st rec.id (a + 1), Or.inr ⟨a + 1, rfl⟩,
            (congrArg Prod.snd hok).symm⟩
        | simp at hok
  obtain ⟨st1, hst1, rfl⟩ := hst'
  have hfil := filter_eq_nil_after_consume hone hst1 t
  have hsel' : selectLatestUnconsumed (markConsumed st1 rec.id t) u p = none := by
    simp [selectLatestUnconsumed, hfil]
  simp [verifyAndConsumeOtp, hsel']

/-- Witness for C1 at a concrete store: consuming the only login OTP of user
7 succeeds, and replaying the same correct code afterwards is `invalid`. -/
theorem otp_consumed_at_most_once_witness :
    (verifyAndConsumeOtp
      [{ id := 1, user_id := 7, purpose := "login",
         otp_hash := bcryptHash "123456", expires_at := 100,
         consumed_at := some 50, attempts := some 1, created_at := 0 }]
      7 "123456" "login" 60).1 = .invalid :=
  otp_consumed_at_most_once
    [{ id := 1, user_id := 7, purpose := "login",
       otp_hash := bcryptHash "123456", expires_at := 100,
       consumed_at := none, attempts := some 0, created_at := 0 }]
    7 "login" "123456" 50
    { id := 1, user_id := 7, purpose := "login",
      otp_hash := bcryptHash "123456", expires_at := 100,
      consumed_at := none, attempts := some 0, created_at := 0 }
    [{ id := 1, user_id := 7, purpose := "login",
       otp_hash := bcryptHash "123456", expires_at := 100,
       consumed_at := some 50, attempts := some 1, created_at := 0 }]
    (by decide) (by decide) "123456" 60

/-- A fresh OTP row as inserted by `createHashedOtp` (attempts start at the
given count; `consumed_at` null; hash of the real code). -/
def mkOtpRec (idn u : Nat) (p code : String) (e c : Int) (a : Nat) : OtpRecord :=
  { id := idn, user_id := u, purpose := p, otp_hash := bcryptHash code,
    expires_at := e, consumed_at := none, attempts := some a, created_at := c }

lemma selectLatestUnconsumed_singleton {u : Nat} {p : String} {r : OtpRecord}
    (h : otpCandidate u p r = true) : selectLatestUnconsumed [r] u p = some r := by
  simp [selectLatestUnconsumed, List.filter, h]

lemma otpCandidate_mkOtpRec (idn u : Nat) (p code : String) (e c : Int) (a : Nat) :
    otpCandidate u p (mkOtpRec idn u p code e c a) = true := by
  simp [otpCandidate, mkOtpRec]

/-- One incorrect attempt against the sole, unexpired, uncapped record:
outcome `invalid`, attempts bumped by one, record not consumed. -/
lemma verify_wrong_singleton (idn u : Nat) (p real wrong : String) (e c t : Int)
    (a : Nat) (ha : a < 5) (hw : wrong ≠ real) (ht : ¬ e < t) :
    verifyAndConsumeOtp [mkOtpRec idn u p real e c a] u wrong p t =
      (.invalid, [mkOtpRec idn u p real e c (a + 1)]) := by
  have hsel := selectLatestUnconsumed_singleton (otpCandidate_mkOtpRec idn u p real e c a)
  have h5 : ¬ (5 ≤ a) := Nat.not_le.mpr ha
  unfold verifyAndConsumeOtp
  rw [hsel]
  simp [mkOtpRec, attemptsCapped, ht, h5, bcryptCompare_hash, hw, setAttempts]

/-- Iterating the incorrect attempt `i ≤ 5` times leaves a single unconsumed
record with `attempts = i`. -/
lemma iterate_wrong_singleton (idn u : Nat) (p real wrong : String) (e c t : Int)
    (hw : wrong ≠ real) (ht : ¬ e < t) :
    ∀ i, i ≤ 5 →
      (fun st => (verifyAndConsumeOtp st u wrong p t).2)^[i]
          [mkOtpRec idn u p real e c 0] =
        [mkOtpRec idn u p real e c i] := by
  intro i hi
  induction i with
  | zero => simp
  | succ n ih =>
    rw [Function.iterate_succ_apply', ih (Nat.le_of_succ_le hi)]
    rw [verify_wrong_singleton idn u p real wrong e c t n (by omega) hw ht]

/-- C3: the attempts cap is checked before the candidate code is compared.
Starting from a fresh unexpired record, each of the first five incorrect
attempts returns `invalid` (incrementing `attempts` each time), and the
sixth attempt — even with the correct code — returns `too_many_attempts`,
leaves the store unchanged, and the record is never consumed. -/
theorem otp_attempts_cap_blocks_correct_code
    (idn u : Nat) (p real wrong : String) (e c t : Int)
    (hw : wrong ≠ real) (ht : ¬ e < t) :
    (∀ i, i < 5 →
      (verifyAndConsumeOtp
        ((fun st => (verifyAndConsumeOtp st u wrong p t).2)^[i]
          [mkOtpRec idn u p real e c 0]) u wrong p t).1 = .invalid) ∧
    verifyAndConsumeOtp
        ((fun st => (verifyAndConsumeOtp st u wrong p t).2)^[5]
          [mkOtpRec idn u p real e c 0]) u real p t =
      (.tooManyAttempts,
        (fun st => (verifyAndConsumeOtp st u wrong p t).2)^[5]
          [mkOtpRec idn u p real e c 0]) ∧
    (∀ r ∈ (fun st => (verifyAndConsumeOtp st u wrong p t).2)^[5]
          [mkOtpRec idn u p real e c 0], r.consumed_at = none) := by
  have h5 := iterate_wrong_singleton idn u p real wrong e c t hw ht 5 (by omega)
  refine ⟨?_, ?_, ?_⟩
  · intro i hi
    rw [iterate_wrong_singleton idn u p real wrong e c t hw ht i (by omega)]
    rw [verify_wrong_singleton idn u p real wrong e c t i hi hw ht]
  · rw [h5]
    have hsel := selectLatestUnconsumed_singleton (otpCandidate_mkOtpRec idn u p real e c 5)
    unfold verifyAndConsumeOtp
    rw [hsel]
    simp [mkOtpRec, attemptsCapped, ht]
  · rw [h5]
    intro r hr
    rw [List.mem_singleton] at hr
    subst hr
    rfl

/-- Witness for C3 at a concrete record: after five wrong guesses the
correct code is still rejected with `too_many_attempts` and the record stays
unconsumed. -/
theorem otp_attempts_cap_blocks_correct_code_witness :
    verifyAndConsumeOtp
        ((fun st => (verifyAndConsumeOtp st 7 "000000" "login" 50).2)^[5]
          [mkOtpRec 1 7 "login" "123456" 100 0 0]) 7 "123456" "login" 50 =
      (.tooManyAttempts,
        (fun st => (verifyAndConsumeOtp st 7 "000000" "login" 50).2)^[5]
          [mkOtpRec 1 7 "login" "123456" 100 0 0]) :=
  (otp_attempts_cap_blocks_correct_code 1 7 "login" "123456" "000000" 100 0 50
    (by decide) (by decide)).2.1

-- ──────────────────────────────────────────────────────────────────────────
-- Users table and session tokens (middleware/auth.js, signJwt)
-- ──────────────────────────────────────────────────────────────────────────

/-- A row of the `app_users` table. `password_updated_at` is the
password-last-changed timestamp in ms (null until a reset completes);
`google_sub` is the optional OAuth provider subject id. -/
structure AppUser where
  id : Nat
  name : String
  email : String
  password_hash : String
  role : String
  google_sub : Option String
  email_verified : Bool
  picture : Option String
  password_updated_at : Option Int
  deriving DecidableEq, Repr

/-- Lookup `findUserByEmail`: `.from('app_users').select('*').eq('email', email)`. -/
def findUserByEmail (users : List AppUser) (email : String) : Option AppUser :=
  users.find? (fun u => u.email == email)

/-- The middleware lookup `.eq('id', payload.sub).single()`. -/
def findUserById (users : List AppUser) (id : Nat) : Option AppUser :=
  users.find? (fun u => u.id == id)

/-- Lookup `findUserByGoogleSub`: `.eq('google_sub', sub).maybeSingle()`. -/
def findUserByGoogleSub (users : List AppUser) (sub : String) : Option AppUser :=
  users.find? (fun u => u.google_sub == some sub)

/-- The claim set `{sub, role, email, name}` plus the `iat` (seconds) that
`jwt.sign` stamps on the token. -/
structure JwtPayload where
  sub : Nat
  role : String
  email : String
  name : String
  iat : Int
  deriving DecidableEq, Repr

/-- A signed compact token: its claims, the secret it was signed with, and
whether its `exp` is still in the future. Signature verification is
modelled structurally: `jwt.verify(token, secret)` succeeds exactly when
the secrets agree and the token is unexpired. -/
structure SignedToken where
  payload : JwtPayload
  signedWith : String
  unexpired : Bool
  deriving DecidableEq, Repr

/-- Function `signJwt(user)`: signs `{sub, role, email, name}` with the configured
secret; `iat` is the issuance time in seconds. -/
def signJwt (secret : String) (u : AppUser) (iat : Int) : SignedToken :=
  { payload := { sub := u.id, role := u.role, email := u.email, name := u.name,
                 iat := iat },
    signedWith := secret, unexpired := true }

/-- Verification `jwt.verify(token, JWT_SECRET)`: the payload on success, `none` on a bad
signature or expired token (the `catch` branch). -/
def jwtVerify (secret : String) (tok : SignedToken) : Option JwtPayload :=
  if tok.signedWith == secret && tok.unexpired then some tok.payload else none

-- ──────────────────────────────────────────────────────────────────────────
-- middleware/auth.js
-- ──────────────────────────────────────────────────────────────────────────

/-- The request surface the middleware reads: method, the `X-CSRF-Token`
header, the `csrf_token` cookie, the `access_token` cookie and the parsed
`Bearer` authorization header. -/
structure AuthReq where
  method : String
  csrfHeader : Option String
  csrfCookie : Option String
  accessTokenCookie : Option SignedToken
  bearerToken : Option SignedToken
  deriving DecidableEq, Repr

/-- Every exit of the `auth` middleware: pass-through for preflight, the 403
CSRF rejection, the four 401s, and the authorized `next()` with the safe
user payload attached to the request. -/
inductive AuthDecision where
  | preflightNext
  | csrfRejected403
  | notAuthenticated401
  | invalidToken401
  | userNotFound401
  | staleToken401
  | authorizedNext (sub : Nat) (email name role : String) (iat : Int)
  deriving DecidableEq, Repr

/-- Constant `const UNSAFE_METHODS = new Set(['POST', 'PUT', 'PATCH', 'DELETE'])`. -/
def UNSAFE_METHODS : List String := ["POST", "PUT", "PATCH", "DELETE"]

/-- Constant `const SKEW_MS = 120000; // 2 minutes tolerance`. -/
def SKEW_MS : Int := 120000

/-- Middleware `auth(req, res, next)` from `middleware/auth.js`: OPTIONS passes; unsafe
methods must present `X-CSRF-Token` equal to the `csrf_token` cookie
(rejected 403 otherwise, before any token handling); token from the
`access_token` cookie, else the `Bearer` header; verify; load the user by
`payload.sub`; reject 401 when `password_updated_at` (ms) exceeds
`iat * 1000` by more than `SKEW_MS`; otherwise attach the user and call
`next()`. -/
def auth (users : List AppUser) (secret : String) (req : AuthReq) : AuthDecision :=
  if req.method == "OPTIONS" then .preflightNext
  else if UNSAFE_METHODS.contains req.method &&
      (strFalsy req.csrfHeader || strFalsy req.csrfCookie ||
        req.csrfHeader != req.csrfCookie) then .csrfRejected403
  else
    let token := match req.accessTokenCookie with
      | some t => some t
      | none => req.bearerToken
    match token with
    | none => .notAuthenticated401
    | some tok =>
      match jwtVerify secret tok with
      | none => .invalidToken401
      | some payload =>
        match findUserById users payload.sub with
        | none => .userNotFound401
        | some user =>
          let stale := match user.password_updated_at with
            | some pwdMs => decide (pwdMs - payload.iat * 1000 > SKEW_MS)
            | none => false
          if stale then .staleToken401
          else .authorizedNext payload.sub payload.email payload.name user.role
            payload.iat

/-- The request shape of a browser call on a safe method carrying only the
session cookie. -/
def cookieOnlyReq (tok : SignedToken) : AuthReq :=
  { method := "GET", csrfHeader := none, csrfCookie := none,
    accessTokenCookie := some tok, bearerToken := none }

/-- C2: a session token is accepted by the validator as long as no password
change has occurred, and is rejected with the stale-token 401 exactly when
the user's `password_updated_at` (ms) exceeds the token's `iat` (ms) by
more than the 120000 ms skew tolerance. -/
theorem session_stale_iff_password_changed_beyond_skew
    (users : List AppUser) (secret : String) (tok : SignedToken) (user : AppUser)
    (hsig : tok.signedWith = secret) (hexp : tok.unexpired = true)
    (huser : findUserById users tok.payload.sub = some user) :
    (user.password_updated_at = none →
      auth users secret (cookieOnlyReq tok) =
        .authorizedNext tok.payload.sub tok.payload.email tok.payload.name
          user.role tok.payload.iat) ∧
    (∀ p, user.password_updated_at = some p →
      (auth users secret (cookieOnlyReq tok) = .staleToken401 ↔
        p - tok.payload.iat * 1000 > 120000)) := by
  constructor
  · intro hp
    simp [auth, cookieOnlyReq, UNSAFE_METHODS, jwtVerify, hsig, hexp, huser, hp]
  · intro p hp
    by_cases hgt : p - tok.payload.iat * 1000 > 120000 <;>
      simp [auth, cookieOnlyReq, UNSAFE_METHODS, jwtVerify, hsig, hexp, huser, hp,
        SKEW_MS, hgt]

/-- Witness for C2: a user whose password changed at 200000 ms rejects a
token issued at `iat = 0` (200000 − 0 > 120000). -/
theorem session_stale_iff_password_changed_beyond_skew_witness :
    auth
      [{ id := 7, name := "n", email := "e", password_hash := "h",
         role := "user", google_sub := none, email_verified := true,
         picture := none, password_updated_at := some 200000 }]
      "s"
      (cookieOnlyReq
        { payload := { sub := 7, role := "user", email := "e", name := "n",
                       iat := 0 },
          signedWith := "s", unexpired := true }) = .staleToken401 :=
  ((session_stale_iff_password_changed_beyond_skew
    [{ id := 7, name := "n", email := "e", password_hash := "h",
       role := "user", google_sub := none, email_verified := true,
       picture := none, password_updated_at := some 200000 }]
    "s"
    { payload := { sub := 7, role := "user", email := "e", name := "n", iat := 0 },
      signedWith := "s", unexpired := true }
    { id := 7, name := "n", email := "e", password_hash := "h",
      role := "user", google_sub := none, email_verified := true,
      picture := none, password_updated_at := some 200000 }
    rfl rfl (by decide)).2 200000 rfl).mpr (by decide)

/-- C7: for every request with an unsafe method, a missing or mismatching
double-submit pair is rejected with the 403 before token extraction,
verification or the user lookup (the rejection holds for every store,
secret and token, since all of them are universally quantified); safe
methods never hit the CSRF rejection. -/
theorem csrf_double_submit_guard
    (users : List AppUser) (secret : String) (req : AuthReq) :
    (req.method ∈ UNSAFE_METHODS →
      (strFalsy req.csrfHeader ∨ strFalsy req.csrfCookie ∨
        req.csrfHeader ≠ req.csrfCookie) →
      auth users secret req = .csrfRejected403) ∧
    (req.method ∉ UNSAFE_METHODS →
      auth users secret req ≠ .csrfRejected403) := by
  constructor
  · intro hm hcsrf
    have hm' : req.method = "POST" ∨ req.method = "PUT" ∨ req.method = "PATCH" ∨
        req.method = "DELETE" := by
      simpa [UNSAFE_METHODS] using hm
    have hop : (req.method == "OPTIONS") = false := by
      rcases hm' with h | h | h | h <;> simp [h]
    have hcontains : UNSAFE_METHODS.contains req.method = true := by
      simpa using hm
    have hcond : (strFalsy req.csrfHeader || strFalsy req.csrfCookie ||
        req.csrfHeader != req.csrfCookie) = true := by
      rcases hcsrf with h | h | h <;> simp [h]
    simp [auth, hop, hcond, hm]
  · intro hm
    have hcontains : UNSAFE_METHODS.contains req.method = false := by
      simpa using hm
    unfold auth
    by_cases hop : (req.method == "OPTIONS") = true
    · simp [hop]
    · simp only [hop, hcontains, Bool.false_and, if_false, Bool.false_eq_true]
      split <;> try simp
      split <;> try simp
      split <;> try simp
      split <;> simp

/-- Witness for C7: a POST with a mismatching header/cookie pair is rejected
with the 403 before any token handling. -/
theorem csrf_double_submit_guard_witness :
    auth [] "s"
      { method := "POST", csrfHeader := some "a", csrfCookie := some "b",
        accessTokenCookie := none, bearerToken := none } = .csrfRejected403 :=
  (csrf_double_submit_guard [] "s"
    { method := "POST", csrfHeader := some "a", csrfCookie := some "b",
      accessTokenCookie := none, bearerToken := none }).1
    (by decide) (Or.inr (Or.inr (by decide)))

-- ──────────────────────────────────────────────────────────────────────────
-- WHATWG URL collaborator (used by the redirect resolution in googleCallback)
-- ──────────────────────────────────────────────────────────────────────────

/-- Model of a parsed WHATWG `URL` restricted to the http(s) URLs this code
manipulates: scheme, host (including any port), and pathname. The search and
hash components are elided — the only code path through `new URL` here
overwrites `pathname` and clears `search`/`hash` before `toString()`. -/
structure Url where
  scheme : String
  host : String
  path : String
  deriving DecidableEq, Repr

/-- Characters the WHATWG parser treats as slashes after a special scheme
(both also end the host component): `/` and `\`. -/
def isSchemeSlash (ch : Char) : Bool := ch == '/' || ch == '\\'

/-- Characters that may appear in the host component. -/
def notSlash (ch : Char) : Bool := !(isSchemeSlash ch)

/-- Recognise and strip an `http`/`https` scheme the way the WHATWG parser
treats its special schemes: the scheme is matched case-insensitively, and
after the `:` any run of `/` or `\` characters — including none at all, as
in `https:evil.example` — is skipped. Other schemes (which the WHATWG
parser also accepts, e.g. `ftp://…`, or opaque ones whose `origin` is the
truthy string `"null"`) are outside this model and yield `none`; no theorem
in this file relies on `parseUrl` returning `none`. -/
def stripScheme (cs : List Char) : Option (String × List Char) :=
  match cs with
  | c1 :: c2 :: c3 :: c4 :: c5 :: rest =>
    if c1.toLower == 'h' && c2.toLower == 't' && c3.toLower == 't' &&
        c4.toLower == 'p' then
      if c5.toLower == 's' then
        match rest with
        | ':' :: r2 => some ("https", r2.dropWhile isSchemeSlash)
        | _ => none
      else if c5 == ':' then some ("http", rest.dropWhile isSchemeSlash)
      else none
    else none
  | _ => none

def parseUrlChars (cs : List Char) : Option Url :=
  match stripScheme cs with
  | none => none
  | some (sch, rest) =>
    let hostCs := rest.takeWhile notSlash
    if hostCs.isEmpty then none
    else
      let afterHost := rest.dropWhile notSlash
      some { scheme := sch, host := String.mk hostCs,
             path := if afterHost.isEmpty then "/" else String.mk afterHost }

/-- Constructor `new URL(s)`, modelled for http(s) special-scheme URLs;
`none` covers both the constructor throwing and the non-http(s) schemes
outside this model. -/
def parseUrl (s : String) : Option Url := parseUrlChars s.data

/-- Accessor `url.origin`. -/
def urlOrigin (u : Url) : String := u.scheme ++ "://" ++ u.host

/-- Printer `url.toString()` (with empty search and hash). -/
def urlToString (u : Url) : String := urlOrigin u ++ u.path

/-- Shape invariant of every `parseUrl` output: a lowercased http(s) scheme,
a nonempty slash-free host, and a path beginning with a slash character. -/
def Url.WF (u : Url) : Prop :=
  (u.scheme = "http" ∨ u.scheme = "https") ∧ u.host.data ≠ [] ∧
    (∀ ch ∈ u.host.data, notSlash ch = true) ∧
    ∃ c t, u.path.data = c :: t ∧ isSchemeSlash c = true

lemma stripScheme_scheme {cs : List Char} {sch : String} {rest : List Char}
    (h : stripScheme cs = some (sch, rest)) : sch = "https" ∨ sch = "http" := by
  unfold stripScheme at h
  split at h
  · split_ifs at h
    · split at h
      · rw [Option.some_inj, Prod.mk.injEq] at h
        exact Or.inl h.1.symm
      · exact absurd h (by simp)
    · rw [Option.some_inj, Prod.mk.injEq] at h
      exact Or.inr h.1.symm
  · exact absurd h (by simp)

lemma stripScheme_http_prefix (rest : List Char) :
    stripScheme ('h' :: 't' :: 't' :: 'p' :: ':' :: '/' :: '/' :: rest) =
      some ("http", List.dropWhile isSchemeSlash rest) := rfl

lemma stripScheme_https_prefix (rest : List Char) :
    stripScheme ('h' :: 't' :: 't' :: 'p' :: 's' :: ':' :: '/' :: '/' :: rest) =
      some ("https", List.dropWhile isSchemeSlash rest) := rfl

lemma head_dropWhile_slash {rest : List Char}
    (h : ¬ (rest.dropWhile notSlash).isEmpty = true) :
    ∃ c t, rest.dropWhile notSlash = c :: t ∧ isSchemeSlash c = true := by
  induction rest with
  | nil => simp at h
  | cons a l ih =>
    rw [List.dropWhile_cons] at h ⊢
    by_cases ha : notSlash a = true
    · rw [if_pos ha] at h ⊢; exact ih h
    · rw [if_neg ha] at h ⊢
      refine ⟨a, l, rfl, ?_⟩
      unfold notSlash at ha
      simpa using ha

lemma parseUrlChars_wf {cs : List Char} {u : Url}
    (h : parseUrlChars cs = some u) : u.WF := by
  unfold parseUrlChars at h
  rcases hs : stripScheme cs with _ | ⟨sch, rest⟩ <;> rw [hs] at h
  · exact absurd h (by simp)
  · simp only at h
    split at h
    · exact absurd h (by simp)
    · rename_i hne
      rw [Option.some_inj] at h
      subst h
      refine ⟨?_, ?_, ?_, ?_⟩
      · rcases stripScheme_scheme hs with h1 | h1 <;> simp [h1]
      · simpa [List.isEmpty_iff] using hne
      · intro ch hch
        exact List.mem_takeWhile_imp hch
      · by_cases hae : (rest.dropWhile notSlash).isEmpty = true
        · exact ⟨'/', [], by simp [hae], by decide⟩
        · obtain ⟨c, t, hct, hc⟩ := head_dropWhile_slash hae
          exact ⟨c, t, by simp [hae, hct], hc⟩

lemma parseUrl_urlToString_of_wf {u : Url} (h : u.WF) :
    parseUrl (urlToString u) = some u := by
  obtain ⟨hsch, hne, hall, c, t, hpath, hcslash⟩ := h
  have hnots : notSlash c = false := by
    unfold notSlash
    rw [hcslash]
    rfl
  have hdata : (urlToString u).data =
      (u.scheme ++ "://").data ++ (u.host.data ++ u.path.data) := by
    simp [urlToString, urlOrigin, String.data_append]
  have htake : (u.host.data ++ u.path.data).takeWhile notSlash = u.host.data := by
    rw [List.takeWhile_append]
    have hself : u.host.data.takeWhile notSlash = u.host.data :=
      List.takeWhile_eq_self_iff.mpr hall
    rw [if_pos (by rw [hself])]
    rw [hpath]
    simp [List.takeWhile_cons, hnots]
  have hdrop : (u.host.data ++ u.path.data).dropWhile notSlash = u.path.data := by
    rw [List.dropWhile_append]
    have hnil : u.host.data.dropWhile notSlash = [] :=
      List.dropWhile_eq_nil_iff.mpr hall
    rw [if_pos (by rw [hnil]; rfl)]
    rw [hpath]
    simp [List.dropWhile_cons, hnots]
  have hrest : ∀ rest, rest = u.host.data ++ u.path.data →
      (match stripScheme ((u.scheme ++ "://").data ++ rest) with
        | none => none
        | some (sch, rest) =>
          let hostCs := rest.takeWhile notSlash
          if hostCs.isEmpty then none
          else
            let afterHost := rest.dropWhile notSlash
            some { scheme := sch, host := String.mk hostCs,
                   path := if afterHost.isEmpty then "/" else String.mk afterHost }) =
        some u := by
    intro rest hr
    obtain ⟨h0, t0, hh⟩ : ∃ h0 t0, u.host.data = h0 :: t0 := by
      cases hhd : u.host.data with
      | nil => exact absurd hhd hne
      | cons a l => exact ⟨a, l, rfl⟩
    have hh0 : notSlash h0 = true := hall h0 (by rw [hh]; exact List.mem_cons_self _ _)
    have hh0s : isSchemeSlash h0 = false := by
      unfold notSlash at hh0
      simpa using hh0
    have hdw : List.dropWhile isSchemeSlash rest = rest := by
      rw [hr, hh, List.cons_append, List.dropWhile_cons, if_neg (by simp [hh0s])]
    have hstrip : stripScheme ((u.scheme ++ "://").data ++ rest) =
        some (u.scheme, rest) := by
      rcases hsch with h1 | h1 <;> rw [h1]
      · have hd : (("http" ++ "://").data ++ rest) =
            'h' :: 't' :: 't' :: 'p' :: ':' :: '/' :: '/' :: rest := rfl
        rw [hd, stripScheme_http_prefix, hdw]
      · have hd : (("https" ++ "://").data ++ rest) =
            'h' :: 't' :: 't' :: 'p' :: 's' :: ':' :: '/' :: '/' :: rest := rfl
        rw [hd, stripScheme_https_prefix, hdw]
    rw [hstrip]
    simp only [hr, htake, hdrop]
    rw [if_neg (by simpa [List.isEmpty_iff] using hne)]
    rw [if_neg (by simp [hpath])]
  unfold parseUrl parseUrlChars
  rw [hdata]
  exact hrest _ rfl

/-- A successfully parsed URL survives a print/re-parse round trip. -/
lemma parseUrl_roundtrip {s : String} {u : Url} (h : parseUrl s = some u) :
    parseUrl (urlToString u) = some u :=
  parseUrl_urlToString_of_wf (parseUrlChars_wf h)

/-- The "Safe redirect resolution inline (updated)" block of `googleCallback`
(the active one, not the commented-out origin-checking block above it):
`appBase = rawRedirectTo || APP_PUBLIC_URL`; `validAppBase` is
`new URL(appBase).toString()` when that parses, else `APP_PUBLIC_URL`;
finally `new URL(validAppBase)` with `pathname = "/vaultx/dashboard"` and
cleared search/hash, with the string concatenation `${APP_PUBLIC_URL}/vaultx/dashboard`
as the nuclear fallback when even that constructor throws. -/
def resolveFinalRedirect (appPublicUrl rawRedirectTo : String) : String :=
  let fallbackPath := "/vaultx/dashboard"
  let appBase := if rawRedirectTo == "" then appPublicUrl else rawRedirectTo
  let validAppBase :=
    match parseUrl appBase with
    | some parsed => urlToString parsed
    | none => appPublicUrl
  match parseUrl validAppBase with
  | some base => urlToString { base with path := fallbackPath }
  | none => appPublicUrl ++ "/vaultx/dashboard"

/-- When the state-supplied target parses as an absolute http(s) URL, its
origin — whatever it is — becomes the origin of the final redirect. -/
lemma resolveFinalRedirect_of_parse {raw : String} {u : Url} (app : String)
    (hraw : parseUrl raw = some u) :
    resolveFinalRedirect app raw = urlOrigin u ++ "/vaultx/dashboard" := by
  have hne : (raw == "") = false := by
    rcases hr : (raw == "") with _ | _
    · rfl
    · rw [beq_iff_eq] at hr
      subst hr
      exact absurd hraw (by simp [parseUrl, parseUrlChars, stripScheme])
  unfold resolveFinalRedirect
  simp only [hne, Bool.false_eq_true, if_false, hraw, parseUrl_roundtrip hraw]
  simp [urlToString, urlOrigin]

-- ──────────────────────────────────────────────────────────────────────────
-- Cookie effects (setAuthCookies, two controller variants)
-- ──────────────────────────────────────────────────────────────────────────

/-- One `res.cookie(name, value, options)` call; only the name and the
security flags are tracked (the values — the signed JWT and the random CSRF
hex — are opaque here). -/
structure SetCookieEffect where
  name : String
  httpOnly : Bool
  secure : Bool
  sameSite : String
  deriving DecidableEq, Repr

/-- Helper `setAuthCookies` in the OAuth-capable controller variant: a CSRF value is
generated, but the `csrf_token` cookie line is commented out
(`// res.cookie('csrf_token', csrf, csrfCookieOptions);`), so only the
HttpOnly `access_token` cookie is actually set. -/
def setAuthCookies_oauthVariant : List SetCookieEffect :=
  [{ name := "access_token", httpOnly := true, secure := true, sameSite := "none" }]

/-- Helper `setAuthCookies` in the second controller variant (no OAuth routes): the
HttpOnly `access_token` cookie plus the JS-readable `csrf_token` cookie. -/
def setAuthCookies_csrfVariant : List SetCookieEffect :=
  [{ name := "access_token", httpOnly := true, secure := true, sameSite := "none" },
   { name := "csrf_token", httpOnly := false, secure := true, sameSite := "none" }]

-- ──────────────────────────────────────────────────────────────────────────
-- GET /api/auth/google/callback
-- ──────────────────────────────────────────────────────────────────────────

/-- The provider's token-endpoint response body (only `id_token` is read). -/
structure GoogleTokens where
  id_token : Option String
  deriving DecidableEq, Repr

/-- The verified ID-token payload fields the callback reads. -/
structure GooglePayload where
  iss : String
  aud : String
  nonce : Option String
  sub : String
  email : Option String
  email_verified : Bool
  name : Option String
  picture : Option String
  deriving DecidableEq, Repr

/-- The decoded `state` payload `{ redirectTo, rand }` (only `redirectTo` is
read back). -/
structure OAuthStateData where
  redirectTo : Option String
  deriving DecidableEq, Repr

/-- The callback's environment: configuration plus the external
collaborators — the provider's token endpoint (`none` models a non-ok
response), Google's ID-token verifier (`none` models a verification throw or
missing payload), and base64url/JSON state decoding (`none` models a parse
throw). `newUserId` is the row id the store assigns on insert. -/
structure OAuthEnv where
  clientId : String
  appPublicUrl : String
  exchange : String → Option GoogleTokens
  verifyIdToken : String → Option GooglePayload
  decodeState : String → Option OAuthStateData
  newUserId : Nat

/-- Query fields (`req.query`) read by the callback. -/
structure CallbackQuery where
  code : Option String
  state : Option String
  deriving DecidableEq, Repr

/-- The transient cookies read by the callback. -/
structure CallbackCookies where
  g_state : Option String
  g_nonce : Option String
  g_mode : Option String
  deriving DecidableEq, Repr

/-- Observable side effects of the callback, in order: the POST to the
provider's token endpoint, the store writes of the linking step, the session
cookie set, and the clearing of the three temp cookies. -/
inductive CbEffect where
  | tokenExchangeCall
  | linkGoogle (userId : Nat) (sub : String)
  | updateUserPatch (userId : Nat)
  | createUserRow (email sub : String)
  | setSessionCookies (cookies : List SetCookieEffect)
  | clearTempCookies
  deriving DecidableEq, Repr

/-- How the callback finishes: an error redirect to the login page, an error
status page, a popup error message, a success redirect, or a popup success
message (both success forms carrying the resolved target). -/
inductive CbOutcome where
  | errorRedirect (target message : String)
  | errorStatus (status : Nat) (message : String)
  | popupError (status : Nat) (message : String)
  | redirect (target : String)
  | popupSuccess (target : String)
  deriving DecidableEq, Repr

structure CbResult where
  outcome : CbOutcome
  effects : List CbEffect
  users : List AppUser
  deriving DecidableEq, Repr

/-- The inline `finishError` helper: clear the three temp cookies, then a
popup error message in popup mode, else the optional error redirect, else a
plain status page (default 400). -/
def finishError (isPopup : Bool) (users : List AppUser) (effs : List CbEffect)
    (message : String) (statusCode : Nat) (redirect : Option String) : CbResult :=
  { outcome :=
      if isPopup then .popupError statusCode message
      else
        match redirect with
        | some r => .errorRedirect r message
        | none => .errorStatus statusCode message,
    effects := effs ++ [.clearTempCookies],
    users := users }

/-- JavaScript `x || y` on strings-or-null. -/
def jsOrOpt (a b : Option String) : Option String :=
  if strFalsy a then b else a

/-- JavaScript `x || y` on strings. -/
def jsOrStr (a b : String) : String :=
  if a == "" then b else a

/-- Update `linkGoogleToUser(userId, google_sub)`: store `google_sub` and mark the
email verified on that row. -/
def linkGoogleToUser (users : List AppUser) (uid : Nat) (sub : String) :
    List AppUser :=
  users.map (fun u =>
    if u.id == uid then { u with google_sub := some sub, email_verified := true }
    else u)

/-- The `updateUser(existing.id, {...})` patch that follows linking:
`email_verified: true`, merged picture and name. -/
def updateUserProfile (users : List AppUser) (uid : Nat) (pic : Option String)
    (nm : String) : List AppUser :=
  users.map (fun u =>
    if u.id == uid then { u with email_verified := true, picture := pic, name := nm }
    else u)

/-- Result of the upsert/link `try` block: the 409 conflict, or the resolved
user together with the updated store and the store-write effects. -/
inductive LinkResult where
  | conflict
  | linked (user : AppUser) (users : List AppUser) (effs : List CbEffect)
  deriving Repr

/-- The upsert/link block of `googleCallback`: find by `google_sub`; else
find by (normalized) email — conflict when that user carries a different
`google_sub`, link when it carries none, then patch the profile; else create
an OAuth-only user with the `"$google$"` password-hash sentinel. -/
def googleUpsertUser (newUserId : Nat) (users : List AppUser)
    (sub email name : String) (picture : Option String) : LinkResult :=
  match findUserByGoogleSub users sub with
  | some user => .linked user users []
  | none =>
    match findUserByEmail users email with
    | some existing =>
      if !(strFalsy existing.google_sub) && existing.google_sub != some sub then
        .conflict
      else
        let doLink := strFalsy existing.google_sub
        let users1 := if doLink then linkGoogleToUser users existing.id sub else users
        let mergedPicture := jsOrOpt existing.picture picture
        let mergedName := jsOrStr existing.name name
        let users2 := updateUserProfile users1 existing.id mergedPicture mergedName
        let user : AppUser :=
          { existing with
            google_sub := some sub
            email_verified := true
            picture := mergedPicture
            name := mergedName }
        .linked user users2
          ((if doLink then [CbEffect.linkGoogle existing.id sub] else []) ++
            [CbEffect.updateUserPatch existing.id])
    | none =>
      let newUser : AppUser :=
        { id := newUserId, name := name, email := email,
          password_hash := "$google$", role := "user", google_sub := some sub,
          email_verified := true, picture := picture, password_updated_at := none }
      .linked newUser (users ++ [newUser]) [CbEffect.createUserRow email sub]

/-- The tail of the callback's success path: sign the session JWT for the
resolved user, set the auth cookies (OAuth-capable variant), clear the temp
cookies, resolve the final redirect and finish in redirect or popup mode. -/
def issueSession (appPublicUrl : String) (users : List AppUser)
    (effs : List CbEffect) (isPopup : Bool) (rawRedirectTo : String) : CbResult :=
  let finalRedirect := resolveFinalRedirect appPublicUrl rawRedirectTo
  { outcome := if isPopup then .popupSuccess finalRedirect else .redirect finalRedirect,
    effects := effs ++ [.setSessionCookies setAuthCookies_oauthVariant,
                        .clearTempCookies],
    users := users }

/-- Controller `googleCallback` from the OAuth-capable variant, step by
step: the state/CSRF guard, state decoding, the code-for-tokens exchange,
ID-token verification (issuer, audience, nonce, verified email), the
upsert/link block, session issuance and the redirect resolution. -/
def googleCallback (env : OAuthEnv) (users : List AppUser) (q : CallbackQuery)
    (ck : CallbackCookies) : CbResult :=
  let isPopup := ck.g_mode == some "popup"
  if strFalsy q.code || strFalsy q.state || strFalsy ck.g_state ||
      q.state != ck.g_state then
    finishError isPopup users [] "Invalid OAuth state" 400
      (some (env.appPublicUrl ++ "/login"))
  else
    match env.decodeState (q.state.getD "") with
    | none => finishError isPopup users [] "Malformed state" 400
        (some (env.appPublicUrl ++ "/login"))
    | some stateData =>
      let rawRedirectTo := stateData.redirectTo.getD ""
      match env.exchange (q.code.getD "") with
      | none => finishError isPopup users [.tokenExchangeCall]
          "Token exchange failed" 400 (some (env.appPublicUrl ++ "/login"))
      | some tokens =>
        match tokens.id_token with
        | none => finishError isPopup users [.tokenExchangeCall]
            "Missing id_token" 401 none
        | some idToken =>
          match env.verifyIdToken idToken with
          | none => finishError isPopup users [.tokenExchangeCall]
              "Bad id_token" 401 none
          | some payload =>
            if !(payload.iss == "https://accounts.google.com" ||
                payload.iss == "accounts.google.com") then
              finishError isPopup users [.tokenExchangeCall]
                "Invalid issuer" 401 none
            else if payload.aud != env.clientId then
              finishError isPopup users [.tokenExchangeCall]
                "Invalid audience" 401 none
            else if strFalsy ck.g_nonce || payload.nonce != ck.g_nonce then
              finishError isPopup users [.tokenExchangeCall]
                "Nonce mismatch" 401 none
            else
              let sub := payload.sub
              let email := jsToLower (jsTrim (payload.email.getD ""))
              let name := jsOrStr (payload.name.getD "")
                (if email == "" then "User" else jsEmailLocalPart email)
              let picture := payload.picture
              if email == "" || !payload.email_verified then
                finishError isPopup users [.tokenExchangeCall]
                  "Google account email not verified" 400 none
              else
                match googleUpsertUser env.newUserId users sub email name picture with
                | .conflict =>
                  finishError isPopup users [.tokenExchangeCall]
                    "This email is already linked to a different Google account."
                    409 none
                | .linked _user users2 effs =>
                  issueSession env.appPublicUrl users2
                    ([CbEffect.tokenExchangeCall] ++ effs) isPopup rawRedirectTo

/-- C4: when `code` or `state` is absent from the query, the transient state
cookie is absent, or `state` differs from the cookie, the callback fails as
`Invalid OAuth state` before the provider is contacted: no token-exchange
call happens, no session cookie is set, and the user store is untouched. -/
theorem oauth_state_guard_blocks_exchange
    (env : OAuthEnv) (users : List AppUser) (q : CallbackQuery)
    (ck : CallbackCookies)
    (h : q.code = none ∨ q.state = none ∨ ck.g_state = none ∨
      q.state ≠ ck.g_state) :
    CbEffect.tokenExchangeCall ∉ (googleCallback env users q ck).effects ∧
    (∀ cs, CbEffect.setSessionCookies cs ∉ (googleCallback env users q ck).effects) ∧
    (googleCallback env users q ck).users = users ∧
    (googleCallback env users q ck).outcome =
      (if ck.g_mode == some "popup" then CbOutcome.popupError 400 "Invalid OAuth state"
       else CbOutcome.errorRedirect (env.appPublicUrl ++ "/login")
         "Invalid OAuth state") := by
  have hcond : (strFalsy q.code || strFalsy q.state || strFalsy ck.g_state ||
      q.state != ck.g_state) = true := by
    rcases h with h | h | h | h <;> simp [strFalsy, h]
  unfold googleCallback
  simp only [hcond, if_true]
  refine ⟨?_, ?_, ?_, ?_⟩ <;> simp [finishError]

/-- A concrete callback environment: provider exchange and verification
succeed, and the decoded state carries a foreign-origin `redirectTo`. -/
def demoEnv : OAuthEnv :=
  { clientId := "cid", appPublicUrl := "https://app.example",
    exchange := fun _ => some { id_token := some "idt" },
    verifyIdToken := fun _ =>
      some { iss := "https://accounts.google.com", aud := "cid",
             nonce := some "n", sub := "gsub-1", email := some "bob@x.com",
             email_verified := true, name := some "Bob", picture := none },
    decodeState := fun _ => some { redirectTo := some "https://evil.example" },
    newUserId := 42 }

/-- Witness for C4: a callback whose query `state` differs from the state
cookie never reaches the exchange, sets no session cookie, and leaves the
store unchanged. -/
theorem oauth_state_guard_blocks_exchange_witness :
    CbEffect.tokenExchangeCall ∉
      (googleCallback demoEnv [] { code := some "c", state := some "x" }
        { g_state := some "y", g_nonce := some "n", g_mode := none }).effects ∧
    CbEffect.setSessionCookies setAuthCookies_oauthVariant ∉
      (googleCallback demoEnv [] { code := some "c", state := some "x" }
        { g_state := some "y", g_nonce := some "n", g_mode := none }).effects ∧
    (googleCallback demoEnv [] { code := some "c", state := some "x" }
        { g_state := some "y", g_nonce := some "n", g_mode := none }).users = [] ∧
    (googleCallback demoEnv [] { code := some "c", state := some "x" }
        { g_state := some "y", g_nonce := some "n", g_mode := none }).outcome =
      CbOutcome.errorRedirect (demoEnv.appPublicUrl ++ "/login")
        "Invalid OAuth state" :=
  have h := oauth_state_guard_blocks_exchange demoEnv []
    { code := some "c", state := some "x" }
    { g_state := some "y", g_nonce := some "n", g_mode := none }
    (Or.inr (Or.inr (Or.inr (by decide))))
  ⟨h.1, h.2.1 setAuthCookies_oauthVariant, h.2.2.1, h.2.2.2⟩

/-- Counterexample to C5 as claimed: a caller-supplied foreign-origin
`redirectTo` in the state payload is honoured — the successful callback
redirects to `https://evil.example/vaultx/dashboard`, which is not under the
configured application base `https://app.example`. -/
theorem oauth_redirect_foreign_origin_honoured :
    (googleCallback demoEnv [] { code := some "c", state := some "st" }
      { g_state := some "st", g_nonce := some "n", g_mode := none }).outcome =
      CbOutcome.redirect "https://evil.example/vaultx/dashboard" ∧
    parseUrl "https://evil.example/vaultx/dashboard" =
      some { scheme := "https", host := "evil.example", path := "/vaultx/dashboard" } ∧
    parseUrl demoEnv.appPublicUrl =
      some { scheme := "https", host := "app.example", path := "/" } ∧
    urlOrigin { scheme := "https", host := "evil.example",
                path := "/vaultx/dashboard" } ≠
      urlOrigin { scheme := "https", host := "app.example", path := "/" } := by
  refine ⟨?_, by decide, by decide, by decide⟩
  decide

/-- C5 (amended): the post-login redirect target is computed only from the
state payload's `redirectTo`; its path is always forced to the fixed default
`/vaultx/dashboard` (search and hash cleared), but the origin is NOT
restricted to the configured application base: every `redirectTo` that is an
absolute http(s) URL — scheme matched case-insensitively, slashes after the
colon optional, foreign origins included — supplies the origin of the final
redirect. The fixed-origin fallback guarantee of the original claim does not
hold (the code's own comment reads "possibly with different origins"); this
theorem asserts nothing about targets outside the http(s) forms the URL
model parses. -/
theorem oauth_redirect_target_resolution (app raw : String) :
    ∀ u, parseUrl raw = some u →
      resolveFinalRedirect app raw = urlOrigin u ++ "/vaultx/dashboard" :=
  fun _u hu => resolveFinalRedirect_of_parse app hu

/-- Witness for the amended C5: the lowercase, uppercase-scheme and
slash-less WHATWG forms of a foreign absolute URL all supply the foreign
origin of the final redirect. -/
theorem oauth_redirect_target_resolution_witness :
    resolveFinalRedirect "https://app.example" "https://evil.example" =
      urlOrigin { scheme := "https", host := "evil.example", path := "/" } ++
        "/vaultx/dashboard" ∧
    resolveFinalRedirect "https://app.example" "HTTPS://evil.example" =
      urlOrigin { scheme := "https", host := "evil.example", path := "/" } ++
        "/vaultx/dashboard" ∧
    resolveFinalRedirect "https://app.example" "https:evil.example" =
      urlOrigin { scheme := "https", host := "evil.example", path := "/" } ++
        "/vaultx/dashboard" :=
  ⟨oauth_redirect_target_resolution "https://app.example" "https://evil.example"
      { scheme := "https", host := "evil.example", path := "/" } (by decide),
   oauth_redirect_target_resolution "https://app.example" "HTTPS://evil.example"
      { scheme := "https", host := "evil.example", path := "/" } (by decide),
   oauth_redirect_target_resolution "https://app.example" "https:evil.example"
      { scheme := "https", host := "evil.example", path := "/" } (by decide)⟩

/-- Under the stage hypotheses (state guard passed, state decoded, exchange
and ID-token verification succeeded, issuer/audience/nonce/email checks
passed), the callback reduces to the upsert/link step followed by session
issuance. -/
lemma googleCallback_reaches_linking
    (env : OAuthEnv) (users : List AppUser) (q : CallbackQuery)
    (ck : CallbackCookies) (stateData : OAuthStateData) (tokens : GoogleTokens)
    (idToken : String) (payload : GooglePayload)
    (h1 : strFalsy q.code = false) (h2 : strFalsy q.state = false)
    (h3 : strFalsy ck.g_state = false) (h4 : q.state = ck.g_state)
    (h5 : env.decodeState (q.state.getD "") = some stateData)
    (h6 : env.exchange (q.code.getD "") = some tokens)
    (h7 : tokens.id_token = some idToken)
    (h8 : env.verifyIdToken idToken = some payload)
    (h9 : payload.iss = "https://accounts.google.com")
    (h10 : payload.aud = env.clientId)
    (h11 : strFalsy ck.g_nonce = false) (h12 : payload.nonce = ck.g_nonce)
    (h13 : payload.email_verified = true)
    (h14 : (jsToLower (jsTrim (payload.email.getD "")) == "") = false) :
    googleCallback env users q ck =
      (match googleUpsertUser env.newUserId users payload.sub
          (jsToLower (jsTrim (payload.email.getD "")))
          (jsOrStr (payload.name.getD "")
            (if jsToLower (jsTrim (payload.email.getD "")) == "" then "User"
             else jsEmailLocalPart (jsToLower (jsTrim (payload.email.getD "")))))
          payload.picture with
        | .conflict =>
          finishError (ck.g_mode == some "popup") users [.tokenExchangeCall]
            "This email is already linked to a different Google account." 409 none
        | .linked _user users2 effs =>
          issueSession env.appPublicUrl users2
            ([CbEffect.tokenExchangeCall] ++ effs) (ck.g_mode == some "popup")
            (stateData.redirectTo.getD "")) := by
  have c0 : (strFalsy q.code || strFalsy q.state || strFalsy ck.g_state ||
      q.state != ck.g_state) = false := by
    simp [h1, h2, h3, h4]
  have c1 : (!(payload.iss == "https://accounts.google.com" ||
      payload.iss == "accounts.google.com")) = false := by
    simp [h9]
  have c2 : (payload.aud != env.clientId) = false := by
    simp [h10]
  have c3 : (strFalsy ck.g_nonce || payload.nonce != ck.g_nonce) = false := by
    simp [h11, h12]
  have c4 : ((jsToLower (jsTrim (payload.email.getD "")) == "") ||
      !payload.email_verified) = false := by
    simp [h14, h13]
  unfold googleCallback
  simp only [c0, Bool.false_eq_true, if_false, h5, h6, h7, h8, c1, c2, c3, c4]

/-- C6: during OAuth linking, when no user carries the provider subject and
the email-matched user is already linked to a different (nonempty) subject,
the callback fails with the 409 conflict, the store (hence that user's
`google_sub`) is unchanged, and no link write happens; moreover a link write
only ever happens when the email-matched user has no provider subject, and
always happens when it has none. -/
theorem oauth_linking_conflict_and_only_unlinked
    (env : OAuthEnv) (users : List AppUser) (q : CallbackQuery)
    (ck : CallbackCookies) (stateData : OAuthStateData) (tokens : GoogleTokens)
    (idToken : String) (payload : GooglePayload) (existing : AppUser)
    (h1 : strFalsy q.code = false) (h2 : strFalsy q.state = false)
    (h3 : strFalsy ck.g_state = false) (h4 : q.state = ck.g_state)
    (h5 : env.decodeState (q.state.getD "") = some stateData)
    (h6 : env.exchange (q.code.getD "") = some tokens)
    (h7 : tokens.id_token = some idToken)
    (h8 : env.verifyIdToken idToken = some payload)
    (h9 : payload.iss = "https://accounts.google.com")
    (h10 : payload.aud = env.clientId)
    (h11 : strFalsy ck.g_nonce = false) (h12 : payload.nonce = ck.g_nonce)
    (h13 : payload.email_verified = true)
    (h14 : (jsToLower (jsTrim (payload.email.getD "")) == "") = false)
    (hsub : findUserByGoogleSub users payload.sub = none)
    (hemail : findUserByEmail users (jsToLower (jsTrim (payload.email.getD ""))) =
      some existing) :
    (∀ g, existing.google_sub = some g → g ≠ "" → g ≠ payload.sub →
      (googleCallback env users q ck).outcome =
        (if ck.g_mode == some "popup"
         then CbOutcome.popupError 409
           "This email is already linked to a different Google account."
         else CbOutcome.errorStatus 409
           "This email is already linked to a different Google account.") ∧
      (googleCallback env users q ck).users = users ∧
      (∀ uid s, CbEffect.linkGoogle uid s ∉ (googleCallback env users q ck).effects)) ∧
    (∀ uid s, CbEffect.linkGoogle uid s ∈ (googleCallback env users q ck).effects →
      strFalsy existing.google_sub = true) ∧
    (strFalsy existing.google_sub = true →
      CbEffect.linkGoogle existing.id payload.sub ∈
        (googleCallback env users q ck).effects) := by
  rw [googleCallback_reaches_linking env users q ck stateData tokens idToken
    payload h1 h2 h3 h4 h5 h6 h7 h8 h9 h10 h11 h12 h13 h14]
  unfold googleUpsertUser
  simp only [hsub, hemail]
  refine ⟨?_, ?_, ?_⟩
  · intro g hg hgne hgsub
    have hcf : (!strFalsy existing.google_sub &&
        existing.google_sub != some payload.sub) = true := by
      simp [strFalsy, hg, hgne, hgsub]
    simp only [hcf, if_true]
    refine ⟨rfl, rfl, ?_⟩
    intro uid s
    simp [finishError]
  · intro uid s hmem
    by_cases hfal : strFalsy existing.google_sub = true
    · exact hfal
    · rw [Bool.not_eq_true] at hfal
      have hcf : (!strFalsy existing.google_sub &&
          existing.google_sub != some payload.sub) =
          (existing.google_sub != some payload.sub) := by
        simp [hfal]
      rcases hbne : (existing.google_sub != some payload.sub) with _ | _
      · simp only [hcf, hbne, Bool.false_eq_true, if_false, hfal,
          issueSession, finishError] at hmem
        simp at hmem
      · simp only [hcf, hbne, if_true, finishError] at hmem
        simp [hfal] at hmem
  · intro hfal
    have hcf : (!strFalsy existing.google_sub &&
        existing.google_sub != some payload.sub) = false := by
      simp [hfal]
    simp only [hcf, Bool.false_eq_true, if_false, hfal, if_true]
    simp [issueSession]

/-- A stored user whose email matches the Google account but who is already
linked to a different provider subject. -/
def conflictUser : AppUser :=
  { id := 9, name := "Bob", email := "bob@x.com", password_hash := "h",
    role := "user", google_sub := some "other-sub", email_verified := true,
    picture := none, password_updated_at := none }

/-- Witness for C6: with `conflictUser` in the store, the callback for a
Google account with subject `gsub-1` and the same email ends in the 409
conflict, leaves the store unchanged, and performs no link write. -/
theorem oauth_linking_conflict_and_only_unlinked_witness :
    (googleCallback demoEnv [conflictUser] { code := some "c", state := some "st" }
      { g_state := some "st", g_nonce := some "n", g_mode := none }).outcome =
      CbOutcome.errorStatus 409
        "This email is already linked to a different Google account." ∧
    (googleCallback demoEnv [conflictUser] { code := some "c", state := some "st" }
      { g_state := some "st", g_nonce := some "n", g_mode := none }).users =
      [conflictUser] ∧
    CbEffect.linkGoogle 9 "gsub-1" ∉
      (googleCallback demoEnv [conflictUser] { code := some "c", state := some "st" }
        { g_state := some "st", g_nonce := some "n", g_mode := none }).effects :=
  have h := (oauth_linking_conflict_and_only_unlinked demoEnv [conflictUser]
    { code := some "c", state := some "st" }
    { g_state := some "st", g_nonce := some "n", g_mode := none }
    { redirectTo := some "https://evil.example" }
    { id_token := some "idt" } "idt"
    { iss := "https://accounts.google.com", aud := "cid", nonce := some "n",
      sub := "gsub-1", email := some "bob@x.com", email_verified := true,
      name := some "Bob", picture := none }
    conflictUser
    (by decide) (by decide) (by decide) rfl rfl rfl rfl rfl rfl rfl
    (by decide) rfl rfl (by decide) (by decide) (by decide)).1
    "other-sub" rfl (by decide) (by decide)
  ⟨h.1, h.2.1, h.2.2 9 "gsub-1"⟩

-- ──────────────────────────────────────────────────────────────────────────
-- Password/OTP controllers (register, login, verifyOtp, requestReset)
-- ──────────────────────────────────────────────────────────────────────────

/-- A `resend.emails.send` call (recipient and subject only). -/
structure EmailSend where
  recipient : String
  subject : String
  deriving DecidableEq, Repr

/-- A controller response: HTTP status and the salient body text. -/
structure HttpResponse where
  status : Nat
  body : String
  deriving DecidableEq, Repr

/-- Function `createHashedOtp(user_id, purpose, ttlMinutes = 10)`: insert a fresh
hashed OTP row with `expires_at = now + ttl`; the plaintext is the
`generateOtp()` draw passed in by the caller, returned only for dispatch.
`newId`/`tMs` stand for the store-assigned row id and `created_at`; the
`attempts` column starts at its 0 default. -/
def createHashedOtp (otps : List OtpRecord) (newId user_id : Nat)
    (purpose : String) (otpDraw : String) (tMs ttlMinutes : Int) :
    List OtpRecord :=
  otps ++ [{ id := newId, user_id := user_id, purpose := purpose,
             otp_hash := bcryptHash otpDraw,
             expires_at := tMs + ttlMinutes * 60 * 1000,
             consumed_at := none, attempts := some 0, created_at := tMs }]

/-- Controller `requestReset` (POST /password-reset/request): 400 on a missing email;
otherwise trim (no lowercasing), look the user up, and only when one exists
create a hashed reset OTP and send the email — but respond
`200 "If that email exists, an OTP has been sent."` in both cases. -/
def requestReset (users : List AppUser) (otps : List OtpRecord)
    (bodyEmail : Option String) (otpDraw : String) (newOtpId : Nat) (tMs : Int) :
    HttpResponse × List OtpRecord × List EmailSend :=
  if strFalsy bodyEmail then
    ({ status := 400, body := "email is required" }, otps, [])
  else
    let email := jsTrim (bodyEmail.getD "")
    match findUserByEmail users email with
    | some user =>
      ({ status := 200, body := "If that email exists, an OTP has been sent." },
       createHashedOtp otps newOtpId user.id "reset" otpDraw tMs 10,
       [{ recipient := email, subject := "Password Reset OTP" }])
    | none =>
      ({ status := 200, body := "If that email exists, an OTP has been sent." },
       otps, [])

/-- Outcomes of `login` (POST /login, step 1 of the OTP MFA). -/
inductive LoginResult where
  | badRequest400
  | invalidEmail401
  | invalidPassword401
  | otpSent200
  deriving DecidableEq, Repr

/-- Controller `login`: requires email and password; trims the email (no lowercasing);
exact-match user lookup — absence is the
`401 'Invalid email or user does not exist'`; password check; then a login
OTP is created and mailed. -/
def login (users : List AppUser) (otps : List OtpRecord)
    (bodyEmail bodyPassword : Option String) (otpDraw : String) (newOtpId : Nat)
    (tMs : Int) : LoginResult × List OtpRecord :=
  if strFalsy bodyEmail || strFalsy bodyPassword then (.badRequest400, otps)
  else
    let email := jsTrim (bodyEmail.getD "")
    match findUserByEmail users email with
    | none => (.invalidEmail401, otps)
    | some user =>
      if bcryptCompare (bodyPassword.getD "") user.password_hash then
        (.otpSent200, createHashedOtp otps newOtpId user.id "login" otpDraw tMs 10)
      else (.invalidPassword401, otps)

/-- Outcomes of `verifyOtp` (POST /verify-otp). -/
inductive VerifyOtpResult where
  | badRequest400
  | invalidEmail401
  | otpFailed401 (message : String)
  | success200
  deriving DecidableEq, Repr

/-- Controller `verifyOtp`: trims the email (no lowercasing), finds the user, runs
`verifyAndConsumeOtp` for purpose `'login'`, and on success signs the JWT and
calls `setAuthCookies` — `authCookies` is that call's cookie list, which is
`setAuthCookies_oauthVariant` or `setAuthCookies_csrfVariant` depending on
the controller variant (the two variants differ in nothing else here). -/
def verifyOtp (authCookies : List SetCookieEffect) (users : List AppUser)
    (otps : List OtpRecord) (bodyEmail bodyOtp : Option String) (tMs : Int) :
    VerifyOtpResult × List OtpRecord × List SetCookieEffect :=
  if strFalsy bodyEmail || strFalsy bodyOtp then (.badRequest400, otps, [])
  else
    let email := jsTrim (bodyEmail.getD "")
    match findUserByEmail users email with
    | none => (.invalidEmail401, otps, [])
    | some user =>
      let v := verifyAndConsumeOtp otps user.id (bodyOtp.getD "") "login" tMs
      match v.1 with
      | .ok => (.success200, v.2, authCookies)
      | .expired => (.otpFailed401 "OTP expired", v.2, [])
      | .tooManyAttempts => (.otpFailed401 "Too many attempts", v.2, [])
      | .invalid => (.otpFailed401 "Invalid OTP", v.2, [])

/-- A row of `pending_registrations`. -/
structure PendingRegistration where
  id : Nat
  name : String
  email : String
  password_hash : String
  otp_hash : String
  expires_at : Int
  consumed_at : Option Int
  attempts : Nat
  deriving DecidableEq, Repr

/-- The `upsert(..., { onConflict: 'email' })` on `pending_registrations`:
replace the row with that email when present, else insert a new one. -/
def upsertPending (pendings : List PendingRegistration) (newId : Nat)
    (name email password_hash otp_hash : String) (expires : Int) :
    List PendingRegistration :=
  if pendings.any (fun p => p.email == email) then
    pendings.map (fun p =>
      if p.email == email then
        { p with
          name := name
          password_hash := password_hash
          otp_hash := otp_hash
          expires_at := expires
          attempts := 0
          consumed_at := none }
      else p)
  else
    pendings ++ [{ id := newId, name := name, email := email,
                   password_hash := password_hash, otp_hash := otp_hash,
                   expires_at := expires, consumed_at := none, attempts := 0 }]

/-- Outcomes of `register` (POST /register, start step). -/
inductive RegisterResult where
  | badRequest400
  | conflict409
  | otpSent200
  deriving DecidableEq, Repr

/-- Controller `register`: requires name/email/password; trims **and lowercases** the
email; 409 when a user already exists under it; hashes the password and the
OTP draw and upserts the pending registration (one per email). -/
def register (users : List AppUser) (pendings : List PendingRegistration)
    (bodyName bodyEmail bodyPassword : Option String) (otpDraw : String)
    (newPendingId : Nat) (tMs : Int) : RegisterResult × List PendingRegistration :=
  if strFalsy bodyName || strFalsy bodyEmail || strFalsy bodyPassword then
    (.badRequest400, pendings)
  else
    let email := jsToLower (jsTrim (bodyEmail.getD ""))
    match findUserByEmail users email with
    | some _ => (.conflict409, pendings)
    | none =>
      (.otpSent200,
       upsertPending pendings newPendingId (bodyName.getD "") email
         (bcryptHash (bodyPassword.getD "")) (bcryptHash otpDraw)
         (tMs + 10 * 60 * 1000))

/-- Update `.update({ consumed_at: t }).eq('id', id)` on `pending_registrations`. -/
def markPendingConsumed (pendings : List PendingRegistration) (id : Nat)
    (t : Int) : List PendingRegistration :=
  pendings.map (fun p => if p.id == id then { p with consumed_at := some t } else p)

/-- Outcomes of `verifyRegisterOtp` (POST /register/verify). -/
inductive VerifyRegResult where
  | badRequest400
  | noPending401
  | expired401
  | tooMany429
  | invalidOtp401
  | race409
  | created201 (user : AppUser)
  deriving DecidableEq, Repr

/-- Controller `verifyRegisterOtp`: trims **and lowercases** the email; fetches the
unconsumed pending row by it; expiry and attempts-cap checks; compare and
bump attempts; on match, re-check for a racing user (consume and 409), else
insert the user with the pending row's name/hash and the lowercased email,
consume the pending row, and set the auth cookies of the controller
variant. -/
def verifyRegisterOtp (authCookies : List SetCookieEffect)
    (users : List AppUser) (pendings : List PendingRegistration)
    (bodyEmail bodyOtp : Option String) (newUserId : Nat) (tMs : Int) :
    VerifyRegResult × List AppUser × List PendingRegistration ×
      List SetCookieEffect :=
  if strFalsy bodyEmail || strFalsy bodyOtp then
    (.badRequest400, users, pendings, [])
  else
    let email := jsToLower (jsTrim (bodyEmail.getD ""))
    match pendings.find? (fun p => p.email == email && p.consumed_at.isNone) with
    | none => (.noPending401, users, pendings, [])
    | some pending =>
      if pending.expires_at < tMs then (.expired401, users, pendings, [])
      else if 5 ≤ pending.attempts then (.tooMany429, users, pendings, [])
      else
        let ok := bcryptCompare (bodyOtp.getD "") pending.otp_hash
        let pendings1 := pendings.map (fun p =>
          if p.id == pending.id then { p with attempts := p.attempts + 1 } else p)
        if !ok then (.invalidOtp401, users, pendings1, [])
        else
          match findUserByEmail users email with
          | some _ =>
            (.race409, users, markPendingConsumed pendings1 pending.id tMs, [])
          | none =>
            let userRow : AppUser :=
              { id := newUserId, name := pending.name, email := email,
                password_hash := pending.password_hash, role := "user",
                google_sub := none, email_verified := false, picture := none,
                password_updated_at := none }
            (.created201 userRow, users ++ [userRow],
             markPendingConsumed pendings1 pending.id tMs, authCookies)

/-- C9: the password-reset request's observable response is independent of
whether a user exists for the submitted email — two runs over different
stores (one holding a matching user, one not) return the identical status
and body, and any run with an email present returns
`200 "If that email exists, an OTP has been sent."`. (The store and the
notifier are assumed to succeed, as in the embedding, which is total.) -/
theorem reset_request_no_existence_leak
    (users₁ users₂ : List AppUser) (otps₁ otps₂ : List OtpRecord)
    (e : Option String) (d₁ d₂ : String) (i₁ i₂ : Nat) (t₁ t₂ : Int) :
    (requestReset users₁ otps₁ e d₁ i₁ t₁).1 =
      (requestReset users₂ otps₂ e d₂ i₂ t₂).1 ∧
    (strFalsy e = false →
      (requestReset users₁ otps₁ e d₁ i₁ t₁).1 =
        { status := 200, body := "If that email exists, an OTP has been sent." }) := by
  constructor
  · unfold requestReset
    by_cases hf : strFalsy e = true
    · simp [hf]
    · rw [Bool.not_eq_true] at hf
      simp only [hf, Bool.false_eq_true, if_false]
      rcases h1 : findUserByEmail users₁ (jsTrim (e.getD "")) with _ | u1 <;>
        rcases h2 : findUserByEmail users₂ (jsTrim (e.getD "")) with _ | u2 <;>
        simp [h1, h2]
  · intro hf
    unfold requestReset
    simp only [hf, Bool.false_eq_true, if_false]
    rcases h1 : findUserByEmail users₁ (jsTrim (e.getD "")) with _ | u1 <;>
      simp [h1]

/-- Witness for C9: a store holding `bob@x.com` versus an empty store —
identical 200 responses. -/
theorem reset_request_no_existence_leak_witness :
    (requestReset
      [{ id := 7, name := "Bob", email := "bob@x.com",
         password_hash := bcryptHash "pw", role := "user", google_sub := none,
         email_verified := true, picture := none, password_updated_at := none }]
      [] (some "bob@x.com") "111111" 1 0).1 =
      (requestReset [] [] (some "bob@x.com") "222222" 2 5).1 ∧
    (requestReset
      [{ id := 7, name := "Bob", email := "bob@x.com",
         password_hash := bcryptHash "pw", role := "user", google_sub := none,
         email_verified := true, picture := none, password_updated_at := none }]
      [] (some "bob@x.com") "111111" 1 0).1 =
      { status := 200, body := "If that email exists, an OTP has been sent." } :=
  have h := reset_request_no_existence_leak
    [{ id := 7, name := "Bob", email := "bob@x.com",
       password_hash := bcryptHash "pw", role := "user", google_sub := none,
       email_verified := true, picture := none, password_updated_at := none }]
    [] [] [] (some "bob@x.com") "111111" "222222" 1 2 0 5
  ⟨h.1, h.2 (by decide)⟩

/-- The pending-registration upsert always leaves a row stored under the
submitted (already-normalized) email. -/
lemma upsertPending_stores_email (pendings : List PendingRegistration)
    (newId : Nat) (nm em ph oh : String) (ex : Int) :
    (upsertPending pendings newId nm em ph oh ex).any
      (fun p => p.email == em) = true := by
  unfold upsertPending
  by_cases hany : pendings.any (fun p => p.email == em) = true
  · rw [if_pos hany]
    rw [List.any_eq_true] at hany
    obtain ⟨p, hp, hpe⟩ := hany
    rw [List.any_eq_true]
    exact ⟨_, List.mem_map.mpr ⟨p, hp, rfl⟩, by rw [if_pos hpe]; exact hpe⟩
  · rw [if_neg hany]
    simp

/-- C10: email normalization is asymmetric — `register` (and
`verifyRegisterOtp`) trim and lowercase the submitted email before storing
and looking it up, while `login` only trims it; so a mixed-case email that
registration accepts (storing its lowercase form, over a store whose emails
are all lowercase) is rejected by `login` with the
401 'Invalid email or user does not exist' even when the registered user
(stored under the lowercase form) is present. -/
theorem email_normalization_asymmetry
    (users : List AppUser) (pendings : List PendingRegistration)
    (otps : List OtpRecord) (raw : String) (nm pw : Option String)
    (d d' : String) (i i' : Nat) (t t' : Int)
    (hraw : raw ≠ "")
    (hnm : strFalsy nm = false) (hpw : strFalsy pw = false)
    (hmixed : jsToLower (jsTrim raw) ≠ jsTrim raw)
    (hnew : findUserByEmail users (jsToLower (jsTrim raw)) = none)
    (hlower : ∀ u ∈ users, u.email = jsToLower u.email) :
    (register users pendings nm (some raw) pw d i t).1 = .otpSent200 ∧
    ((register users pendings nm (some raw) pw d i t).2.any
      (fun p => p.email == jsToLower (jsTrim raw)) = true) ∧
    (∀ (otpB : Option String) (nid : Nat) (tv : Int) (nu : AppUser) (cks : List SetCookieEffect),
      (verifyRegisterOtp cks users pendings (some raw) otpB nid tv).1 =
        .created201 nu → nu.email = jsToLower (jsTrim raw)) ∧
    (∀ nu : AppUser, nu.email = jsToLower (jsTrim raw) →
      (login (users ++ [nu]) otps (some raw) pw d' i' t').1 = .invalidEmail401) := by
  have hrawf : strFalsy (some raw) = false := by simp [strFalsy, hraw]
  refine ⟨?_, ?_, ?_, ?_⟩
  · unfold register
    simp [hrawf, hnm, hpw, hnew]
  · unfold register
    simp only [hrawf, hnm, hpw, Bool.or_self, Bool.or_false, Bool.false_or,
      Bool.false_eq_true, if_false, Option.getD_some, hnew]
    exact upsertPending_stores_email _ _ _ _ _ _ _
  · intro otpB nid tv nu cks h
    unfold verifyRegisterOtp at h
    by_cases hob : strFalsy otpB = true
    · simp [hrawf, hob] at h
    · rw [Bool.not_eq_true] at hob
      simp only [hrawf, hob, Bool.or_self, Bool.or_false, Bool.false_or,
        Bool.false_eq_true, if_false, Option.getD_some] at h
      rcases hp : List.find?
          (fun p => p.email == jsToLower (jsTrim raw) && p.consumed_at.isNone)
          pendings with _ | pending <;> simp only [hp] at h
      · simp at h
      · split_ifs at h with h1 h2 h3 <;> try simp at h
        rcases hu : findUserByEmail users (jsToLower (jsTrim raw)) with _ | u <;>
          simp only [hu] at h
        · simp only [VerifyRegResult.created201.injEq] at h
          rw [← h]
        · simp at h
  · intro nu hnu
    have hfind : findUserByEmail (users ++ [nu]) (jsTrim raw) = none := by
      unfold findUserByEmail
      rw [List.find?_eq_none]
      intro u hu
      rcases List.mem_append.mp hu with hm | hm
      · intro hbe
        rw [beq_iff_eq] at hbe
        have := hlower u hm
        rw [hbe] at this
        exact hmixed (this ▸ rfl)
      · rw [List.mem_singleton] at hm
        subst hm
        intro hbe
        rw [beq_iff_eq] at hbe
        rw [hnu] at hbe
        exact hmixed hbe
    unfold login
    simp [hrawf, hpw, hfind]

/-- A pending registration for `bob@x.com` awaiting the OTP `123456`. -/
def pendingBob : PendingRegistration :=
  { id := 1, name := "Bob", email := "bob@x.com",
    password_hash := bcryptHash "pw", otp_hash := bcryptHash "123456",
    expires_at := 100, consumed_at := none, attempts := 0 }

/-- The user that promoting `pendingBob` creates. -/
def promotedBob : AppUser :=
  { id := 5, name := "Bob", email := "bob@x.com",
    password_hash := bcryptHash "pw", role := "user", google_sub := none,
    email_verified := false, picture := none, password_updated_at := none }

/-- Witness for C10: registering `"Bob@X.com"` succeeds and stores
`bob@x.com`, but logging in with the identical string `"Bob@X.com"` is
rejected as an unknown email even with the created user present. -/
theorem email_normalization_asymmetry_witness :
    (register [] [pendingBob] (some "Bob") (some "Bob@X.com") (some "pw")
      "111111" 1 0).1 = .otpSent200 ∧
    ((register [] [pendingBob] (some "Bob") (some "Bob@X.com") (some "pw")
      "111111" 1 0).2.any
      (fun p => p.email == jsToLower (jsTrim "Bob@X.com")) = true) ∧
    promotedBob.email = jsToLower (jsTrim "Bob@X.com") ∧
    (login ([] ++ [promotedBob]) [] (some "Bob@X.com") (some "pw")
      "222222" 2 9).1 = .invalidEmail401 :=
  have h := email_normalization_asymmetry [] [pendingBob] [] "Bob@X.com"
    (some "Bob") (some "pw") "111111" "222222" 1 2 0 9
    (by decide) (by decide) (by decide) (by decide)
    (by decide) (by intro u hu; exact absurd hu (by simp))
  ⟨h.1, h.2.1,
   h.2.2.1 (some "123456") 5 50 promotedBob setAuthCookies_csrfVariant (by decide),
   h.2.2.2 promotedBob (by decide)⟩

/-- C8 at the failing input: in the OAuth-capable controller variant a
successful `verifyOtp` — and the successful OAuth callback — set only the
HttpOnly `access_token` cookie and no `csrf_token` cookie (the line is
commented out), while the other controller variant sets both. This
contradicts the claim (and the variant's own inline comment
`// Set HttpOnly access_token + readable csrf_token`, as well as its own
middleware, which requires the `csrf_token` cookie on every unsafe
method). -/
theorem session_issuance_csrf_cookie_missing_in_oauth_variant :
    (verifyOtp setAuthCookies_oauthVariant
      [{ id := 7, name := "Bob", email := "bob@x.com",
         password_hash := bcryptHash "pw", role := "user", google_sub := none,
         email_verified := true, picture := none, password_updated_at := none }]
      [mkOtpRec 1 7 "login" "123456" 100 0 0]
      (some "bob@x.com") (some "123456") 50).1 = .success200 ∧
    ((verifyOtp setAuthCookies_oauthVariant
      [{ id := 7, name := "Bob", email := "bob@x.com",
         password_hash := bcryptHash "pw", role := "user", google_sub := none,
         email_verified := true, picture := none, password_updated_at := none }]
      [mkOtpRec 1 7 "login" "123456" 100 0 0]
      (some "bob@x.com") (some "123456") 50).2.2.map (fun c => c.name) =
      ["access_token"]) ∧
    ((verifyOtp setAuthCookies_csrfVariant
      [{ id := 7, name := "Bob", email := "bob@x.com",
         password_hash := bcryptHash "pw", role := "user", google_sub := none,
         email_verified := true, picture := none, password_updated_at := none }]
      [mkOtpRec 1 7 "login" "123456" 100 0 0]
      (some "bob@x.com") (some "123456") 50).2.2.map (fun c => c.name) =
      ["access_token", "csrf_token"]) ∧
    (CbEffect.setSessionCookies setAuthCookies_oauthVariant ∈
      (googleCallback demoEnv [] { code := some "c", state := some "st" }
        { g_state := some "st", g_nonce := some "n", g_mode := none }).effects) ∧
    (setAuthCookies_oauthVariant.map (fun c => c.name) = ["access_token"]) ∧
    ((setAuthCookies_oauthVariant.filter (fun c => c.name == "csrf_token")) = []) := by
  refine ⟨by decide, by decide, by decide, by decide, by decide, by decide⟩

end AuthBackend
